import Mathlib

/-!
Verification of the economic-viability financial engine.

Shallow embedding of the repository's financial-modeling core:
`financial_items/base_item.py`, `financial_items/capex.py`,
`financial_items/opex.py`, `financial_items/receitas.py`, `config.py` and
`financial_calculations.py`.

Conventions of the embedding:
* Python floats are modelled as rationals (`ℚ`); Python float arithmetic on
  the values handled by this engine is exact-rational in all the places the
  claims quantify over, except the two library calls noted below.
* The two transcendental library calls — `numpy.irr` (an eigenvalue-based
  polynomial root finder, external library code) and the float power
  `(1 + tma/100) ** (1/12)` — are modelled as function parameters
  (`npirr`, `mr`).  `numpy.irr` is constrained, where a claim needs it, by
  the soundness property of the documented numpy behaviour: a numeric return
  is a positive real root of the cash-flow polynomial, and `float('nan')` is
  returned otherwise (numpy < 1.20, the versions that provide `np.irr`;
  `np.irr` does not raise on sign-uniform inputs).
* Python `None` is `Option.none`; the distinguished float `nan` that
  `numpy.irr` produces (and that propagates through arithmetic) is modelled
  by the dedicated constructor `FloatVal.nan`.
* `dict` collections keyed by tag are association lists preserving insertion
  order (Python dicts preserve insertion order); in-place mutation of an
  item stored in the dict is modelled by replacing its entry in the list.
* Wall-clock bookkeeping (`created_at`, `modified_at`, `calculated_at`) and
  uuid tag generation are I/O and are outside the model; operations take
  explicit tags.
-/

/-- Model of Python's `not s.strip()`: a string is blank iff every character
is whitespace (stripping leading/trailing whitespace leaves the empty
string exactly in that case). -/
def str_blank (s : String) : Bool := s.data.all Char.isWhitespace

/-- The attribute set of `BaseFinancialItem` (`base_item.py`): `tag`,
`description`, `quantity`, `unit_price`.  Timestamps are bookkeeping and
outside the model. -/
structure BaseFields where
  tag : String
  description : String
  quantity : ℚ
  unit_price : ℚ
deriving DecidableEq

/-- `BaseFinancialItem.total_value`: derived property
`quantity * unit_price`, never stored. -/
def total_value (b : BaseFields) : ℚ := b.quantity * b.unit_price

/-- `BaseFinancialItem.validate` (`base_item.py` lines 103-118): empty tag,
blank description, negative quantity and negative unit price are rejected,
in that order. -/
def base_validate (b : BaseFields) : Bool × String :=
  if b.tag = "" then (false, "TAG nao pode estar vazio")
  else if str_blank b.description then (false, "Descricao nao pode estar vazia")
  else if b.quantity < 0 then (false, "Quantidade nao pode ser negativa")
  else if b.unit_price < 0 then (false, "Valor unitario nao pode ser negativo")
  else (true, "")

/-- `BaseFinancialItem.update` (`base_item.py` lines 31-46): each field is
overwritten in place when the corresponding argument is not `None`. -/
def base_update (b : BaseFields) (description : Option String)
    (quantity unit_price : Option ℚ) : BaseFields :=
  { b with
    description := description.getD b.description
    quantity := quantity.getD b.quantity
    unit_price := unit_price.getD b.unit_price }

/-- The month clamp `max(1, min(12, int(month)))` used by `CapExItem` and by
the start/end months of `OpExItem` / `ReceitaItem`. -/
def clamp_month (m : ℤ) : ℤ := max 1 (min 12 m)

/-- Association-list lookup, modelling `self.items[tag]` / `tag in self.items`
on a Python dict. -/
def lookup_tag {α : Type} : List (String × α) → String → Option α
  | [], _ => none
  | (k, v) :: rest, tag => if k = tag then some v else lookup_tag rest tag

/-- Replace the value stored under `tag`, preserving insertion order;
models in-place mutation of the item object held by the dict. -/
def replace_tag {α : Type} : List (String × α) → String → α → List (String × α)
  | [], _, _ => []
  | (k, v) :: rest, tag, v' =>
    if k = tag then (k, v') :: rest else (k, v) :: replace_tag rest tag v'

/-- Deletion from the keyed collection, modelling `del self.items[tag]`. -/
def remove_tag {α : Type} : List (String × α) → String → List (String × α)
  | [], _ => []
  | (k, v) :: rest, tag => if k = tag then rest else (k, v) :: remove_tag rest tag

/-- `CapExItem` (`capex.py`): a base item plus the investment `month`,
clamped into `[1, 12]` by the constructor. -/
structure CapExItem where
  base : BaseFields
  month : ℤ
deriving DecidableEq

/-- `CapExItem.__init__`: base fields plus `month = max(1, min(12, int(month)))`. -/
def mkCapExItem (tag description : String) (quantity unit_price : ℚ)
    (month : ℤ) : CapExItem :=
  ⟨⟨tag, description, quantity, unit_price⟩, clamp_month month⟩

/-- The mutable state of `CapexManager`: the keyed item collection plus the
cached aggregate `total_investment`. -/
structure CapexState where
  items : List (String × CapExItem)
  total_investment : ℚ

/-- `CapexManager.__init__`: empty collection, zero total. -/
def capexEmpty : CapexState := ⟨[], 0⟩

/-- `CapexManager._update_total`'s underlying aggregate:
`sum(item.total_value for item in self.items.values())`. -/
def capex_compute_total (items : List (String × CapExItem)) : ℚ :=
  (items.map (fun p => total_value p.2.base)).sum

/-- `CapexManager.add_item` (`capex.py` lines 44-73): build the item
(clamping the month), validate it, reject duplicate tags, then insert and
recompute the cached total. -/
def capex_add_item (st : CapexState) (description : String)
    (quantity unit_price : ℚ) (month : ℤ) (tag : String) :
    Bool × String × CapexState :=
  let item := mkCapExItem tag description quantity unit_price month
  match base_validate item.base with
  | (false, msg) => (false, msg, st)
  | (true, _) =>
    if (lookup_tag st.items item.base.tag).isSome then (false, "TAG ja existe", st)
    else
      let items' := st.items ++ [(item.base.tag, item)]
      (true, "Item adicionado com sucesso", ⟨items', capex_compute_total items'⟩)

/-- `CapexManager.update_item` (`capex.py` lines 75-107), modelled exactly as
written: the stored item is mutated in place (base fields via
`BaseFinancialItem.update`, then the clamped month) *before* `validate()` is
called; on a failed validation the method returns failure with the mutation
already committed and without recomputing the cached total. -/
def capex_update_item (st : CapexState) (tag : String)
    (description : Option String) (quantity unit_price : Option ℚ)
    (month : Option ℤ) : Bool × String × CapexState :=
  match lookup_tag st.items tag with
  | none => (false, "Item nao encontrado", st)
  | some item =>
    let base' := base_update item.base description quantity unit_price
    let item' : CapExItem :=
      { base := base'
        month := match month with
                 | some m => clamp_month m
                 | none => item.month }
    let items' := replace_tag st.items tag item'
    match base_validate item'.base with
    | (false, msg) => (false, msg, { st with items := items' })
    | (true, _) =>
      (true, "Item atualizado com sucesso", ⟨items', capex_compute_total items'⟩)

/-- `CapexManager.delete_item` (`capex.py` lines 109-128). -/
def capex_delete_item (st : CapexState) (tag : String) :
    Bool × String × CapexState :=
  match lookup_tag st.items tag with
  | none => (false, "Item nao encontrado", st)
  | some _ =>
    let items' := remove_tag st.items tag
    (true, "Item removido com sucesso", ⟨items', capex_compute_total items'⟩)

/-- `CapexManager.get_monthly_investment`:
`sum(item.total_value for item in self.items.values() if item.month == month)`. -/
def capex_get_monthly_investment (st : CapexState) (month : ℤ) : ℚ :=
  (st.items.map (fun p => if p.2.month = month then total_value p.2.base else 0)).sum

/-- `OpExItem` (`opex.py`): base item plus `recurrent`, `start_month`,
`end_month`.  The months are integers; the constructor clamps them but
`from_dict` stores record values unclamped, so the type does not restrict
the range. -/
structure OpExItem where
  base : BaseFields
  recurrent : Bool
  start_month : ℤ
  end_month : ℤ
deriving DecidableEq

/-- `OpExItem.__init__` (`opex.py` lines 6-22):
`start_month = max(1, min(12, int(start_month)))`,
`end_month = max(self.start_month, min(12, int(end_month)))`. -/
def mkOpExItem (tag description : String) (quantity unit_price : ℚ)
    (recurrent : Bool) (start_month end_month : ℤ) : OpExItem :=
  let s := clamp_month start_month
  ⟨⟨tag, description, quantity, unit_price⟩, recurrent, s, max s (min 12 end_month)⟩

/-- The persisted record form of an `OpExItem` (the dictionary produced by
`to_dict`, sans timestamps). -/
structure OpexRecord where
  tag : String
  description : String
  quantity : ℚ
  unit_price : ℚ
  recurrent : Bool
  start_month : ℤ
  end_month : ℤ

/-- `OpExItem.from_dict` (`opex.py` lines 39-46), modelled exactly as
written: the base constructor runs with default months (clamped), then the
record's `recurrent`, `start_month` and `end_month` are assigned raw,
without clamping. -/
def opex_from_dict (r : OpexRecord) : OpExItem :=
  { mkOpExItem r.tag r.description r.quantity r.unit_price true 1 12 with
    recurrent := r.recurrent
    start_month := r.start_month
    end_month := r.end_month }

/-- `OpExItem.get_monthly_cost`: the full `total_value` inside the
`[start_month, end_month]` window, else 0. -/
def OpExItem.get_monthly_cost (it : OpExItem) (month : ℤ) : ℚ :=
  if it.start_month ≤ month ∧ month ≤ it.end_month then total_value it.base else 0

/-- The mutable state of `OpexManager`: keyed collection plus cached
`total_annual_cost`. -/
structure OpexState where
  items : List (String × OpExItem)
  total_annual_cost : ℚ

/-- `OpexManager.__init__`. -/
def opexEmpty : OpexState := ⟨[], 0⟩

/-- `OpexManager.get_monthly_cost`: sum of the items' monthly costs. -/
def opex_get_monthly_cost (items : List (String × OpExItem)) (month : ℤ) : ℚ :=
  (items.map (fun p => p.2.get_monthly_cost month)).sum

/-- `OpexManager.get_monthly_costs`: the twelve monthly sums, months 1..12. -/
def opex_get_monthly_costs (items : List (String × OpExItem)) : List ℚ :=
  (List.range 12).map (fun i => opex_get_monthly_cost items ((i : ℤ) + 1))

/-- `OpexManager._update_total`'s underlying aggregate: the sum of the
twelve monthly costs. -/
def opex_compute_total (items : List (String × OpExItem)) : ℚ :=
  (opex_get_monthly_costs items).sum

/-- `OpexManager.add_item` (`opex.py` lines 68-101). -/
def opex_add_item (st : OpexState) (description : String)
    (quantity unit_price : ℚ) (recurrent : Bool) (start_month end_month : ℤ)
    (tag : String) : Bool × String × OpexState :=
  let item := mkOpExItem tag description quantity unit_price recurrent
      start_month end_month
  match base_validate item.base with
  | (false, msg) => (false, msg, st)
  | (true, _) =>
    if (lookup_tag st.items item.base.tag).isSome then (false, "TAG ja existe", st)
    else
      let items' := st.items ++ [(item.base.tag, item)]
      (true, "Item adicionado com sucesso", ⟨items', opex_compute_total items'⟩)

/-- The in-place field mutation performed by `OpexManager.update_item`
(`opex.py` lines 124-132): base fields via `BaseFinancialItem.update`, then
`recurrent`, then `start_month = max(1, min(12, int(start_month)))` when
supplied, then `end_month = max(item.start_month, min(12, int(end_month)))`
when supplied — the end clamp reads the *current*, possibly just updated,
`start_month`; nothing re-clamps `end_month` when only `start_month` is
supplied. -/
def opex_updated_item (item : OpExItem) (description : Option String)
    (quantity unit_price : Option ℚ) (recurrent : Option Bool)
    (start_month end_month : Option ℤ) : OpExItem :=
  let item1 := { item with base := base_update item.base description quantity unit_price }
  let item2 := match recurrent with
               | some rc => { item1 with recurrent := rc }
               | none => item1
  let item3 := match start_month with
               | some sv => { item2 with start_month := clamp_month sv }
               | none => item2
  match end_month with
  | some ev => { item3 with end_month := max item3.start_month (min 12 ev) }
  | none => item3

/-- `OpexManager.update_item` (`opex.py` lines 103-142), modelled exactly as
written: the stored item is mutated in place (`opex_updated_item`) *before*
`validate()` runs; a validation failure returns failure with the mutation
already committed and without recomputing the cached total. -/
def opex_update_item (st : OpexState) (tag : String)
    (description : Option String) (quantity unit_price : Option ℚ)
    (recurrent : Option Bool) (start_month end_month : Option ℤ) :
    Bool × String × OpexState :=
  match lookup_tag st.items tag with
  | none => (false, "Item nao encontrado", st)
  | some item =>
    let item4 := opex_updated_item item description quantity unit_price
        recurrent start_month end_month
    let items' := replace_tag st.items tag item4
    match base_validate item4.base with
    | (false, msg) => (false, msg, { st with items := items' })
    | (true, _) =>
      (true, "Item atualizado com sucesso", ⟨items', opex_compute_total items'⟩)

/-- `OpexManager.delete_item` (`opex.py` lines 144-163). -/
def opex_delete_item (st : OpexState) (tag : String) :
    Bool × String × OpexState :=
  match lookup_tag st.items tag with
  | none => (false, "Item nao encontrado", st)
  | some _ =>
    let items' := remove_tag st.items tag
    (true, "Item removido com sucesso", ⟨items', opex_compute_total items'⟩)

/-- The spec's month-range invariant for cost/revenue items:
`start_month`, `end_month` in `[1, 12]` and `end_month ≥ start_month`. -/
def months_invariant (it : OpExItem) : Prop :=
  1 ≤ it.start_month ∧ it.start_month ≤ 12 ∧
  1 ≤ it.end_month ∧ it.end_month ≤ 12 ∧
  it.start_month ≤ it.end_month

instance months_invariant_decidable (it : OpExItem) :
    Decidable (months_invariant it) := by
  unfold months_invariant
  infer_instance

/-- `ReceitaItem` (`receitas.py`): base item plus `recurrent`,
`start_month`, `end_month` and the monthly `growth_rate` percentage. -/
structure ReceitaItem where
  base : BaseFields
  recurrent : Bool
  start_month : ℤ
  end_month : ℤ
  growth_rate : ℚ
deriving DecidableEq

/-- `ReceitaItem.__init__` (`receitas.py` lines 6-25): months clamped as for
`OpExItem`, `growth_rate = max(0.0, min(100.0, float(growth_rate)))`. -/
def mkReceitaItem (tag description : String) (quantity unit_price : ℚ)
    (recurrent : Bool) (start_month end_month : ℤ) (growth_rate : ℚ) :
    ReceitaItem :=
  let s := clamp_month start_month
  ⟨⟨tag, description, quantity, unit_price⟩, recurrent, s, max s (min 12 end_month),
    max 0 (min 100 growth_rate)⟩

/-- `ReceitaItem.get_monthly_revenue` (`receitas.py` lines 53-67): inside
the `[start_month, end_month]` window the revenue is
`total_value * (1 + growth_rate/100) ** (month - start_month)`, else 0. -/
def ReceitaItem.get_monthly_revenue (it : ReceitaItem) (month : ℤ) : ℚ :=
  if it.start_month ≤ month ∧ month ≤ it.end_month then
    total_value it.base * (1 + it.growth_rate / 100) ^ (month - it.start_month)
  else 0

/-- The mutable state of `ReceitasManager`. -/
structure ReceitasState where
  items : List (String × ReceitaItem)
  total_annual_revenue : ℚ

/-- `ReceitasManager.get_monthly_revenue`: sum of the items' monthly
revenues. -/
def receitas_get_monthly_revenue (st : ReceitasState) (month : ℤ) : ℚ :=
  (st.items.map (fun p => p.2.get_monthly_revenue month)).sum

/-- `ReceitasManager._update_total`'s underlying aggregate: the sum over
months 1..12 of the monthly revenue sums (`get_monthly_revenues`). -/
def receitas_compute_total (items : List (String × ReceitaItem)) : ℚ :=
  ((List.range 12).map (fun i =>
    (items.map (fun p => p.2.get_monthly_revenue ((i : ℤ) + 1))).sum)).sum

/-- The in-place field mutation performed by `ReceitasManager.update_item`
(`receitas.py` lines 133-143): base fields via `BaseFinancialItem.update`,
then `recurrent`, then `start_month = max(1, min(12, int(start_month)))`
when supplied, then
`end_month = max(item.start_month, min(12, int(end_month)))` when supplied
(clamped against the *current* — possibly just updated — `start_month`),
then `growth_rate = max(0.0, min(100.0, float(growth_rate)))` when
supplied; nothing re-clamps `end_month` when only `start_month` is
supplied. -/
def receita_updated_item (item : ReceitaItem) (description : Option String)
    (quantity unit_price : Option ℚ) (recurrent : Option Bool)
    (start_month end_month : Option ℤ) (growth_rate : Option ℚ) : ReceitaItem :=
  let item1 := { item with base := base_update item.base description quantity unit_price }
  let item2 := match recurrent with
               | some rc => { item1 with recurrent := rc }
               | none => item1
  let item3 := match start_month with
               | some sv => { item2 with start_month := clamp_month sv }
               | none => item2
  let item4 := match end_month with
               | some ev => { item3 with end_month := max item3.start_month (min 12 ev) }
               | none => item3
  match growth_rate with
  | some g => { item4 with growth_rate := max 0 (min 100 g) }
  | none => item4

/-- `ReceitasManager.update_item` (`receitas.py` lines 111-153), modelled
exactly as written: the stored item is mutated in place
(`receita_updated_item`) *before* `validate()` runs; a validation failure
returns failure with the mutation already committed and without
recomputing the cached total. -/
def receitas_update_item (st : ReceitasState) (tag : String)
    (description : Option String) (quantity unit_price : Option ℚ)
    (recurrent : Option Bool) (start_month end_month : Option ℤ)
    (growth_rate : Option ℚ) : Bool × String × ReceitasState :=
  match lookup_tag st.items tag with
  | none => (false, "Item nao encontrado", st)
  | some item =>
    let item5 := receita_updated_item item description quantity unit_price
        recurrent start_month end_month growth_rate
    let items' := replace_tag st.items tag item5
    match base_validate item5.base with
    | (false, msg) => (false, msg, { st with items := items' })
    | (true, _) =>
      (true, "Item atualizado com sucesso", ⟨items', receitas_compute_total items'⟩)

/-- The persisted record form of a `ReceitaItem` (the dictionary produced
by `to_dict`, sans timestamps). -/
structure ReceitaRecord where
  tag : String
  description : String
  quantity : ℚ
  unit_price : ℚ
  recurrent : Bool
  start_month : ℤ
  end_month : ℤ
  growth_rate : ℚ

/-- `ReceitaItem.from_dict` (`receitas.py` lines 43-51), modelled exactly
as written: the base constructor runs with default months and growth rate
(clamped), then the record's `recurrent`, `start_month`, `end_month` and
`growth_rate` are assigned raw, without clamping. -/
def receita_from_dict (r : ReceitaRecord) : ReceitaItem :=
  { mkReceitaItem r.tag r.description r.quantity r.unit_price true 1 12 0 with
    recurrent := r.recurrent
    start_month := r.start_month
    end_month := r.end_month
    growth_rate := r.growth_rate }

/-- The spec's month-range invariant for revenue items: `start_month`,
`end_month` in `[1, 12]` and `end_month ≥ start_month`. -/
def receita_months_invariant (it : ReceitaItem) : Prop :=
  1 ≤ it.start_month ∧ it.start_month ≤ 12 ∧
  1 ≤ it.end_month ∧ it.end_month ≤ 12 ∧
  it.start_month ≤ it.end_month

instance receita_months_invariant_decidable (it : ReceitaItem) :
    Decidable (receita_months_invariant it) := by
  unfold receita_months_invariant
  infer_instance

/-- `Config` (`config.py`): TMA (annual discount rate), IR and CSLL tax
percentages. -/
structure Config where
  tma : ℚ
  ir : ℚ
  csll : ℚ

/-- `Config.get_effective_tax_rate`: `ir + csll`. -/
def Config.get_effective_tax_rate (c : Config) : ℚ := c.ir + c.csll

/-- One month's cash-flow record as assembled by
`FinancialCalculations.calculate_cash_flows`. -/
structure CashFlowEntry where
  month : ℤ
  revenue : ℚ
  opex : ℚ
  capex : ℚ
  ebitda : ℚ
  taxes : ℚ
  net_cash_flow : ℚ
deriving DecidableEq

/-- `FinancialCalculations.calculate_cash_flows`
(`financial_calculations.py` lines 47-86): for each month 1..12, collect the
three schedules' monthly values and derive
`ebitda = revenue - opex`, `taxes = max(0, ebitda * tax_rate)`,
`net_cash_flow = ebitda - taxes - capex`. -/
def calculate_cash_flows (capex : CapexState) (opex : OpexState)
    (receitas : ReceitasState) (config : Config) : List CashFlowEntry :=
  (List.range 12).map (fun i =>
    let month : ℤ := (i : ℤ) + 1
    let revenue := receitas_get_monthly_revenue receitas month
    let opexV := opex_get_monthly_cost opex.items month
    let capexV := capex_get_monthly_investment capex month
    let ebitda := revenue - opexV
    let tax_rate := config.get_effective_tax_rate / 100
    let taxes := max 0 (ebitda * tax_rate)
    ⟨month, revenue, opexV, capexV, ebitda, taxes, ebitda - taxes - capexV⟩)

/-- A Python float that is either an ordinary numeric value or the IEEE
`nan` produced by `numpy.irr` when it finds no admissible root.  `nan` is
absorbing for the arithmetic the engine applies to it. -/
inductive FloatVal where
  | num (x : ℚ)
  | nan
deriving DecidableEq

/-- The cash-flow polynomial `numpy.irr` finds positive real roots of:
`np.roots(values[::-1])` solves `sum(values[i] * x**i) = 0`, with
`x = 1 / (1 + rate)`.  Horner evaluation over the reals. -/
def poly_eval : List ℚ → ℝ → ℝ
  | [], _ => 0
  | f :: rest, x => (f : ℝ) + x * poly_eval rest x

/-- Soundness of a root-finder standing in for `numpy.irr` (external library
code, modelled from numpy's documented implementation): a numeric return
means the cash-flow polynomial has a positive real root; otherwise the
function yields `float('nan')` — it does not raise. -/
def np_irr_sound (npirr : List ℚ → FloatVal) : Prop :=
  ∀ flows r, npirr flows = FloatVal.num r → ∃ x : ℝ, 0 < x ∧ poly_eval flows x = 0

/-- The annualisation `((1 + irr) ** 12 - 1) * 100` applied by
`calculate_tir`; `nan` propagates through float arithmetic. -/
def annualize_irr : FloatVal → FloatVal
  | FloatVal.num r => FloatVal.num (((1 + r) ^ (12 : ℕ) - 1) * 100)
  | FloatVal.nan => FloatVal.nan

/-- `FinancialCalculations.calculate_tir` (`financial_calculations.py`
lines 88-111): extract the net cash flows, call `numpy.irr`, annualise, and
return the result.  The `except` branch returning `None` is unreachable for
the inputs under study: `np.irr` returns `nan` rather than raising, and the
subsequent float arithmetic on `nan` does not raise either, so the function
returns a float (possibly `nan`), wrapped here as `some`. -/
def calculate_tir (npirr : List ℚ → FloatVal)
    (cash_flows : List CashFlowEntry) : Option FloatVal :=
  some (annualize_irr (npirr (cash_flows.map (fun cf => cf.net_cash_flow))))

/-- The TIR entry of `format_results` (`financial_calculations.py`
lines 203-205): `None` renders as the fixed sentinel `"N/A"`; a float `x`
renders as `f"{x:.2f}%"`, which for `x = float('nan')` is the string
`"nan%"` (digit formatting of ordinary numbers is abstracted). -/
def format_tir : Option FloatVal → String
  | none => "N/A"
  | some FloatVal.nan => "nan%"
  | some (FloatVal.num x) => toString x ++ "%"

/-- The summation loop of `FinancialCalculations.calculate_vpl`
(`financial_calculations.py` lines 113-135): term `i` (0-based) of the
enumeration is discounted by `(1 + monthly_rate) ** (i + 1)`. -/
def vpl_aux : List ℚ → ℚ → ℕ → ℚ
  | [], _, _ => 0
  | cf :: rest, monthly_rate, i =>
    cf / (1 + monthly_rate) ^ (i + 1) + vpl_aux rest monthly_rate (i + 1)

/-- `FinancialCalculations.calculate_vpl` on the extracted net cash flows,
parametrised by the already-converted effective monthly rate (the float
power `(1 + tma/100) ** (1/12) - 1` is the only transcendental step; the
claims constrain it separately). -/
def calculate_vpl (monthly_rate : ℚ) (net_flows : List ℚ) : ℚ :=
  vpl_aux net_flows monthly_rate 0

/-- A twelve-entry net-cash-flow series whose only non-zero value is `X`,
placed at month `m` (position `m - 1`). -/
def single_flow (m : ℕ) (X : ℚ) : List ℚ :=
  List.replicate (m - 1) 0 ++ X :: List.replicate (12 - m) 0

/-- The accumulation loop of `FinancialCalculations.calculate_payback`
(`financial_calculations.py` lines 137-161): walk the flows keeping the
running sum; at the first index where it becomes ≥ 0, return
`i + (-prev / flow)` when `i > 0`, and `i + 1` when `i = 0`; return `None`
when the horizon ends without recovery. -/
def payback_aux : List ℚ → ℚ → ℕ → Option ℚ
  | [], _, _ => none
  | cf :: rest, cum, i =>
    let cum' := cum + cf
    if 0 ≤ cum' then
      if 0 < i then
        let prev := cum' - cf
        some ((i : ℚ) + (-prev / cf))
      else some ((i : ℚ) + 1)
    else payback_aux rest cum' (i + 1)

/-- `FinancialCalculations.calculate_payback` on the extracted net cash
flows. -/
def calculate_payback (net_flows : List ℚ) : Option ℚ :=
  payback_aux net_flows 0 0

/-- The cumulative net cash flow after the first `n` months (sum of the
first `n` flows). -/
def partial_sum (flows : List ℚ) (n : ℕ) : ℚ := (flows.take n).sum

/-- `FinancialCalculations.calculate_divida_ebitda`
(`financial_calculations.py` lines 163-186), modelled with both zero checks
the source performs. -/
def calculate_divida_ebitda (cash_flows : List CashFlowEntry) : Option ℚ :=
  let total_ebitda := (cash_flows.map (fun cf => cf.ebitda)).sum
  if total_ebitda = 0 then none
  else
    let total_capex := (cash_flows.map (fun cf => cf.capex)).sum
    if total_ebitda ≠ 0 then some (total_capex / total_ebitda) else none

/-- The spec's ResultSnapshot: the twelve cash-flow entries plus the four
indicators, exactly the fields `calculate_all` computes from the schedules
(the wall-clock `calculated_at` stamp is bookkeeping outside the model). -/
structure ResultSnapshot where
  cash_flows : List CashFlowEntry
  tir : Option FloatVal
  vpl : ℚ
  payback : Option ℚ
  divida_ebitda : Option ℚ

/-- The state held by `FinancialCalculations`: the three schedule managers,
the tax/discount configuration, and the `self.results` cache. -/
structure FinancialState where
  capex : CapexState
  opex : OpexState
  receitas : ReceitasState
  config : Config
  results : Option ResultSnapshot

/-- `FinancialCalculations.calculate_all` (`financial_calculations.py`
lines 21-45): one full calculation pass — build the twelve cash-flow
entries, compute the four indicators, store and return the snapshot.
`npirr` models `numpy.irr` and `mr` models the float computation
`(1 + tma/100) ** (1/12) - 1`; both are fixed deterministic library
functions. -/
def calculate_all (npirr : List ℚ → FloatVal) (mr : ℚ → ℚ)
    (st : FinancialState) : ResultSnapshot × FinancialState :=
  let cash_flows := calculate_cash_flows st.capex st.opex st.receitas st.config
  let nets := cash_flows.map (fun cf => cf.net_cash_flow)
  let snap : ResultSnapshot :=
    { cash_flows := cash_flows
      tir := calculate_tir npirr cash_flows
      vpl := calculate_vpl (mr st.config.tma) nets
      payback := calculate_payback nets
      divida_ebitda := calculate_divida_ebitda cash_flows }
  (snap, { st with results := some snap })

/-- Concrete revenue item of the spec's worked example:
quantity 1, unit price 2000, growth 2 % per month, active months 1-12. -/
def rev_example : ReceitaItem := mkReceitaItem "REC-01" "Vendas" 1 2000 true 1 12 2

theorem lookup_tag_mem {α : Type} :
    ∀ {l : List (String × α)} {t : String} {v : α},
      lookup_tag l t = some v → (t, v) ∈ l := by
  intro l
  induction l with
  | nil => intro t v h; simp [lookup_tag] at h
  | cons q rest ih =>
    intro t v h
    cases q with
    | mk k w =>
      by_cases hk : k = t
      · subst hk
        simp [lookup_tag] at h
        subst h
        exact List.mem_cons_self _ _
      · rw [lookup_tag, if_neg hk] at h
        exact List.mem_cons_of_mem _ (ih h)

theorem mem_replace_tag {α : Type} :
    ∀ {l : List (String × α)} {t : String} {v : α} {p : String × α},
      p ∈ replace_tag l t v → p ∈ l ∨ p.2 = v := by
  intro l
  induction l with
  | nil => intro t v p h; simp [replace_tag] at h
  | cons q rest ih =>
    intro t v p h
    cases q with
    | mk k w =>
      by_cases hk : k = t
      · rw [replace_tag, if_pos hk] at h
        rcases List.mem_cons.mp h with h1 | h1
        · right; rw [h1]
        · left; exact List.mem_cons_of_mem _ h1
      · rw [replace_tag, if_neg hk] at h
        rcases List.mem_cons.mp h with h1 | h1
        · left; exact h1 ▸ List.mem_cons_self _ _
        · rcases ih h1 with h2 | h2
          · left; exact List.mem_cons_of_mem _ h2
          · right; exact h2

theorem partial_sum_zero (flows : List ℚ) : partial_sum flows 0 = 0 := by
  simp [partial_sum]

theorem partial_sum_cons (f : ℚ) (l : List ℚ) (n : ℕ) :
    partial_sum (f :: l) (n + 1) = f + partial_sum l n := by
  simp [partial_sum]

/-- The payback loop at a crossing: if the running sum first becomes
non-negative at relative position `j > 0` (absolutely: with a positive
running index), the loop returns `index + (-previous_cumulative / flow)`. -/
theorem payback_aux_crossing :
    ∀ (l : List ℚ) (cum : ℚ) (idx j : ℕ),
      j < l.length →
      (∀ k, k < j → cum + partial_sum l (k + 1) < 0) →
      0 ≤ cum + partial_sum l (j + 1) →
      0 < idx + j →
      payback_aux l cum idx
        = some (((idx + j : ℕ) : ℚ) + (-(cum + partial_sum l j) / l.getD j 0)) := by
  intro l
  induction l with
  | nil => intro cum idx j hj; simp at hj
  | cons f rest ih =>
    intro cum idx j hj hneg hcross hpos
    match j with
    | 0 =>
      have hc : 0 ≤ cum + f := by
        have := hcross
        rwa [partial_sum_cons, partial_sum_zero, add_zero] at this
      have hidx : 0 < idx := by simpa using hpos
      rw [payback_aux]
      simp only [hc, if_true, hidx, if_pos]
      rw [partial_sum_zero]
      simp only [Nat.add_zero, add_zero, List.getD_cons_zero]
      congr 1
      ring
    | j' + 1 =>
      have hneg0 : cum + f < 0 := by
        have := hneg 0 (Nat.succ_pos _)
        rwa [partial_sum_cons, partial_sum_zero, add_zero] at this
      rw [payback_aux]
      simp only [not_le.mpr hneg0, if_false]
      have hrec := ih (cum + f) (idx + 1) j'
        (by simpa using Nat.lt_of_succ_lt_succ hj)
        (by
          intro k hk
          have := hneg (k + 1) (Nat.succ_lt_succ hk)
          rwa [partial_sum_cons, ← add_assoc] at this)
        (by
          have := hcross
          rwa [partial_sum_cons, ← add_assoc] at this)
        (by omega)
      rw [hrec, partial_sum_cons]
      simp only [List.getD_cons_succ]
      congr 1
      push_cast
      ring

/-- The payback loop when the running sum stays negative across the whole
horizon: no result. -/
theorem payback_aux_none :
    ∀ (l : List ℚ) (cum : ℚ) (idx : ℕ),
      (∀ k, k < l.length → cum + partial_sum l (k + 1) < 0) →
      payback_aux l cum idx = none := by
  intro l
  induction l with
  | nil => intro cum idx _; rfl
  | cons f rest ih =>
    intro cum idx hneg
    have hneg0 : cum + f < 0 := by
      have := hneg 0 (by simp)
      rwa [partial_sum_cons, partial_sum_zero, add_zero] at this
    rw [payback_aux]
    simp only [not_le.mpr hneg0, if_false]
    exact ih (cum + f) (idx + 1) (by
      intro k hk
      have := hneg (k + 1) (by simpa using Nat.succ_lt_succ hk)
      rwa [partial_sum_cons, ← add_assoc] at this)

/-- Claim C3 (amended): payback walks the monthly net cash flows
accumulating them, and when the first month with cumulative sum ≥ 0 has
0-based index `i > 0` the result is `i + (-previous_cumulative / flow_i)`;
for net flows [-1000, 500, 500, 500] the result is exactly 3; when the
cumulative sum never reaches 0 the sentinel `none` ("not recovered") is
returned.  (At a first-month crossing, `i = 0`, the code returns 1 instead
of the interpolation formula — see the counterexample theorem.) -/
theorem calculate_payback_spec :
    (∀ (flows : List ℚ) (i : ℕ),
        i < flows.length →
        (∀ k, k < i → partial_sum flows (k + 1) < 0) →
        0 ≤ partial_sum flows (i + 1) →
        0 < i →
        calculate_payback flows
          = some ((i : ℚ) + (-(partial_sum flows i) / flows.getD i 0))) ∧
    (∀ flows : List ℚ,
        (∀ k, k < flows.length → partial_sum flows (k + 1) < 0) →
        calculate_payback flows = none) ∧
    calculate_payback [-1000, 500, 500, 500] = some 3 := by
  refine ⟨?_, ?_, ?_⟩
  · intro flows i hi hneg hcross hipos
    have := payback_aux_crossing flows 0 0 i hi
      (by intro k hk; simpa using hneg k hk)
      (by simpa using hcross)
      (by simpa using hipos)
    rw [calculate_payback, this]
    simp
  · intro flows hneg
    exact payback_aux_none flows 0 0 (by intro k hk; simpa using hneg k hk)
  · norm_num [calculate_payback, payback_aux]

/-- Witness for C3: the crossing clause applied at the spec's worked example
[-1000, 500, 500, 500], crossing index 2, giving 2 + 500/500 = 3. -/
theorem calculate_payback_spec_witness :
    calculate_payback [-1000, 500, 500, 500]
      = some ((2 : ℚ) + (-(partial_sum [-1000, 500, 500, 500] 2)
          / List.getD [-1000, 500, 500, 500] 2 0)) :=
  calculate_payback_spec.1 [-1000, 500, 500, 500] 2 (by norm_num)
    (by
      intro k hk
      interval_cases k <;> norm_num [partial_sum])
    (by norm_num [partial_sum])
    (by norm_num)

/-- Counterexample for C3 as stated: when the cumulative sum is already
non-negative at the very first month, the code returns 1, not the claimed
`month_index + fraction = 0 + (-0 / flow)`. -/
theorem calculate_payback_first_month_counterexample :
    calculate_payback [5, 0, 0, 0, 0, 0, 0, 0, 0, 0, 0, 0] = some 1 ∧
    calculate_payback [5, 0, 0, 0, 0, 0, 0, 0, 0, 0, 0, 0]
      ≠ some ((0 : ℚ) + (-(partial_sum [5, 0, 0, 0, 0, 0, 0, 0, 0, 0, 0, 0] 0)
          / List.getD [5, 0, 0, 0, 0, 0, 0, 0, 0, 0, 0, 0] 0 0)) := by
  constructor
  · norm_num [calculate_payback, payback_aux]
  · norm_num [calculate_payback, payback_aux, partial_sum]

/-- Claim C10: when the cumulative net cash flow is already ≥ 0 at the first
month (index 0), payback returns exactly 1, which differs from the
interpolation formula `month_index + fraction = 0`. -/
theorem calculate_payback_first_month (f0 : ℚ) (rest : List ℚ) (h : 0 ≤ f0) :
    calculate_payback (f0 :: rest) = some 1 ∧
    (1 : ℚ) ≠ (0 : ℚ) + (-(partial_sum (f0 :: rest) 0) / (f0 :: rest).getD 0 0) := by
  constructor
  · rw [calculate_payback, payback_aux]
    simp [h]
  · rw [partial_sum_zero]
    norm_num

/-- Witness for C10 at the concrete first-month-positive series
[5, 0, ..., 0]. -/
theorem calculate_payback_first_month_witness :
    calculate_payback (5 :: List.replicate 11 0) = some 1 ∧
    (1 : ℚ) ≠ (0 : ℚ) + (-(partial_sum (5 :: List.replicate 11 0) 0)
        / ((5 : ℚ) :: List.replicate 11 0).getD 0 0) :=
  calculate_payback_first_month 5 (List.replicate 11 0) (by norm_num)

theorem poly_eval_nonneg {flows : List ℚ} {x : ℝ}
    (hf : ∀ f ∈ flows, (0 : ℚ) ≤ f) (hx : 0 ≤ x) : 0 ≤ poly_eval flows x := by
  induction flows with
  | nil => simp [poly_eval]
  | cons f rest ih =>
    rw [poly_eval]
    have h0 : (0 : ℚ) ≤ f := hf f (List.mem_cons_self _ _)
    have h1 : 0 ≤ poly_eval rest x :=
      ih (fun g hg => hf g (List.mem_cons_of_mem _ hg))
    positivity

theorem poly_eval_pos {flows : List ℚ} {x : ℝ}
    (hf : ∀ f ∈ flows, (0 : ℚ) ≤ f) (hp : ∃ f ∈ flows, (0 : ℚ) < f)
    (hx : 0 < x) : 0 < poly_eval flows x := by
  induction flows with
  | nil => simp at hp
  | cons f rest ih =>
    rw [poly_eval]
    have h0 : (0 : ℚ) ≤ f := hf f (List.mem_cons_self _ _)
    have h1 : 0 ≤ poly_eval rest x :=
      poly_eval_nonneg (fun g hg => hf g (List.mem_cons_of_mem _ hg)) hx.le
    rcases hp with ⟨g, hg, hgpos⟩
    rcases List.mem_cons.mp hg with rfl | hg'
    · have : (0 : ℝ) < (g : ℝ) := by exact_mod_cast hgpos
      nlinarith
    · have h2 : 0 < poly_eval rest x :=
        ih (fun g' hg' => hf g' (List.mem_cons_of_mem _ hg')) ⟨g, hg', hgpos⟩
      have : (0 : ℝ) ≤ (f : ℝ) := by exact_mod_cast h0
      nlinarith

/-- Claim C2: for a twelve-month net-cash-flow series that is entirely
non-negative, any sound stand-in for `numpy.irr` can find no positive real
root of the cash-flow polynomial, so it yields `float('nan')`; the code's
annualisation propagates the `nan` and `calculate_tir` *returns that
numeric `nan`* — it does not return the `None` sentinel, and
`format_results` renders `"nan%"`, not `"N/A"`.  This refutes the claim on
the code (the claim demands the `None`/"N/A" sentinel). -/
theorem calculate_tir_no_sign_change (npirr : List ℚ → FloatVal)
    (hsound : np_irr_sound npirr) (entries : List CashFlowEntry)
    (hlen : entries.length = 12)
    (hnn : ∀ e ∈ entries, (0 : ℚ) ≤ e.net_cash_flow)
    (hpos : ∃ e ∈ entries, (0 : ℚ) < e.net_cash_flow) :
    calculate_tir npirr entries = some FloatVal.nan ∧
    calculate_tir npirr entries ≠ none ∧
    format_tir (calculate_tir npirr entries) ≠ "N/A" := by
  have hmain : npirr (entries.map (fun cf => cf.net_cash_flow)) = FloatVal.nan := by
    cases hv : npirr (entries.map (fun cf => cf.net_cash_flow)) with
    | num r =>
      exfalso
      rcases hsound _ r hv with ⟨x, hx, hroot⟩
      have hflows : ∀ f ∈ entries.map (fun cf => cf.net_cash_flow), (0 : ℚ) ≤ f := by
        intro f hf
        rcases List.mem_map.mp hf with ⟨e, he, rfl⟩
        exact hnn e he
      have hfpos : ∃ f ∈ entries.map (fun cf => cf.net_cash_flow), (0 : ℚ) < f := by
        rcases hpos with ⟨e, he, hlt⟩
        exact ⟨e.net_cash_flow, List.mem_map.mpr ⟨e, he, rfl⟩, hlt⟩
      exact absurd hroot (ne_of_gt (poly_eval_pos hflows hfpos hx))
    | nan => rfl
  refine ⟨?_, ?_, ?_⟩
  · rw [calculate_tir, hmain]; rfl
  · rw [calculate_tir]; simp
  · rw [calculate_tir, hmain]
    intro h
    rw [show annualize_irr FloatVal.nan = FloatVal.nan from rfl] at h
    simp [format_tir] at h

/-- Witness for C2: the all-positive series of twelve months at +100 each,
with the trivially sound root finder that always reports `nan`. -/
theorem calculate_tir_no_sign_change_witness :
    calculate_tir (fun _ => FloatVal.nan)
        (List.replicate 12 ⟨1, 100, 0, 0, 100, 0, 100⟩) = some FloatVal.nan ∧
    calculate_tir (fun _ => FloatVal.nan)
        (List.replicate 12 ⟨1, 100, 0, 0, 100, 0, 100⟩) ≠ none ∧
    format_tir (calculate_tir (fun _ => FloatVal.nan)
        (List.replicate 12 ⟨1, 100, 0, 0, 100, 0, 100⟩)) ≠ "N/A" :=
  calculate_tir_no_sign_change (fun _ => FloatVal.nan)
    (fun _ r h => FloatVal.noConfusion h)
    (List.replicate 12 ⟨1, 100, 0, 0, 100, 0, 100⟩)
    (by simp)
    (by
      intro e he
      rw [List.eq_of_mem_replicate he]
      norm_num)
    ⟨⟨1, 100, 0, 0, 100, 0, 100⟩, by simp, by norm_num⟩

theorem vpl_aux_eq_sum :
    ∀ (l : List ℚ) (r : ℚ) (i : ℕ),
      vpl_aux l r i = ∑ j ∈ Finset.range l.length, l.getD j 0 / (1 + r) ^ (i + j + 1) := by
  intro l
  induction l with
  | nil => intro r i; simp [vpl_aux]
  | cons f rest ih =>
    intro r i
    rw [vpl_aux, List.length_cons, Finset.sum_range_succ', ih r (i + 1)]
    simp only [List.getD_cons_succ, List.getD_cons_zero, Nat.add_zero]
    have hsum :
        (∑ j ∈ Finset.range rest.length, rest.getD j 0 / (1 + r) ^ (i + 1 + j + 1))
          = ∑ j ∈ Finset.range rest.length, rest.getD j 0 / (1 + r) ^ (i + (j + 1) + 1) := by
      refine Finset.sum_congr rfl fun j _ => ?_
      have he : i + 1 + j + 1 = i + (j + 1) + 1 := by omega
      rw [he]
    rw [hsum]
    ring

theorem vpl_aux_replicate_zero (n : ℕ) (r : ℚ) :
    ∀ i : ℕ, vpl_aux (List.replicate n 0) r i = 0 := by
  induction n with
  | zero => intro i; rfl
  | succ n ih =>
    intro i
    rw [List.replicate_succ, vpl_aux, zero_div, zero_add]
    exact ih (i + 1)

theorem vpl_aux_replicate_zero_append (n : ℕ) (l : List ℚ) (r : ℚ) :
    ∀ i : ℕ, vpl_aux (List.replicate n 0 ++ l) r i = vpl_aux l r (i + n) := by
  induction n with
  | zero => intro i; simp
  | succ n ih =>
    intro i
    rw [List.replicate_succ, List.cons_append, vpl_aux, zero_div, zero_add, ih (i + 1)]
    congr 1
    omega

/-- Claim C5: the NPV loop discounts the entry at 0-based position `j` by
`(1 + monthly_rate) ^ (j + 1)` — the entry's month, since the builder emits
months 1..12 in order — under the conversion
`monthly_rate = (1 + tma/100) ^ (1/12) - 1` of the annual TMA rate;
consequently a twelve-entry series whose only non-zero net cash flow is `X`
at month `mth` has NPV exactly `X / (1 + monthly_rate) ^ mth`. -/
theorem calculate_vpl_single_flow (tma m : ℚ)
    (hconv : (m : ℝ) = (1 + (tma : ℝ) / 100) ^ ((1 : ℝ) / 12) - 1)
    (X : ℚ) (mth : ℕ) (h1 : 1 ≤ mth) (h2 : mth ≤ 12) :
    calculate_vpl m (single_flow mth X) = X / (1 + m) ^ mth ∧
    ∀ flows : List ℚ,
      calculate_vpl m flows
        = ∑ j ∈ Finset.range flows.length, flows.getD j 0 / (1 + m) ^ (j + 1) := by
  constructor
  · rw [calculate_vpl, single_flow, vpl_aux_replicate_zero_append, vpl_aux,
      vpl_aux_replicate_zero, add_zero]
    have he : 0 + (mth - 1) + 1 = mth := by omega
    rw [he]
  · intro flows
    rw [calculate_vpl, vpl_aux_eq_sum]
    refine Finset.sum_congr rfl fun j _ => ?_
    have he : 0 + j + 1 = j + 1 := by omega
    rw [he]

/-- Witness for C5: TMA 0 % converts to monthly rate 0, and the series with
a single flow of 7 at month 3 has NPV `7 / (1 + 0) ^ 3`. -/
theorem calculate_vpl_single_flow_witness :
    calculate_vpl 0 (single_flow 3 7) = 7 / (1 + (0 : ℚ)) ^ (3 : ℕ) ∧
    ∀ flows : List ℚ,
      calculate_vpl 0 flows
        = ∑ j ∈ Finset.range flows.length, flows.getD j 0 / (1 + (0 : ℚ)) ^ (j + 1) :=
  calculate_vpl_single_flow 0 0 (by push_cast; simp) 7 3 (by norm_num) (by norm_num)


/-- Claim C4: revenue of an item at a month inside its
`[start_month, end_month]` window is
`total_value * (1 + growth_rate/100) ^ (month - start_month)`, outside the
window it is 0, and the first active month carries exponent 0 (no
compounding); the spec's worked example yields 2000 at month 1, 2040 at
month 2 and `2000 * 1.02 ^ 11` at month 12. -/
theorem receita_monthly_revenue_spec :
    (∀ (it : ReceitaItem) (month : ℤ),
        (it.start_month ≤ month → month ≤ it.end_month →
          it.get_monthly_revenue month
            = total_value it.base
                * (1 + it.growth_rate / 100) ^ (month - it.start_month)) ∧
        (¬ (it.start_month ≤ month ∧ month ≤ it.end_month) →
          it.get_monthly_revenue month = 0)) ∧
    (∀ it : ReceitaItem, it.start_month ≤ it.end_month →
        it.get_monthly_revenue it.start_month = total_value it.base) ∧
    (rev_example.get_monthly_revenue 1 = 2000 ∧
     rev_example.get_monthly_revenue 2 = 2040 ∧
     rev_example.get_monthly_revenue 12 = 2000 * ((51 : ℚ) / 50) ^ (11 : ℕ)) := by
  refine ⟨?_, ?_, ?_, ?_, ?_⟩
  · intro it month
    constructor
    · intro h1 h2
      rw [ReceitaItem.get_monthly_revenue, if_pos ⟨h1, h2⟩]
    · intro h
      rw [ReceitaItem.get_monthly_revenue, if_neg h]
  · intro it h
    rw [ReceitaItem.get_monthly_revenue, if_pos ⟨le_refl _, h⟩, sub_self,
      zpow_zero, mul_one]
  · norm_num [rev_example, mkReceitaItem, clamp_month,
      ReceitaItem.get_monthly_revenue, total_value]
  · norm_num [rev_example, mkReceitaItem, clamp_month,
      ReceitaItem.get_monthly_revenue, total_value]
  · norm_num [rev_example, mkReceitaItem, clamp_month,
      ReceitaItem.get_monthly_revenue, total_value]

/-- Witness for C4: the in-window clause at the worked example item and
month 5. -/
theorem receita_monthly_revenue_spec_witness :
    rev_example.get_monthly_revenue 5
      = total_value rev_example.base
          * (1 + rev_example.growth_rate / 100) ^ ((5 : ℤ) - rev_example.start_month) :=
  (receita_monthly_revenue_spec.1 rev_example 5).1 (by decide) (by decide)

/-- Claim C8: the leverage ratio is the capex sum over the entries divided
by the EBITDA sum, with the `None` sentinel (rendered "N/A") whenever the
EBITDA sum is zero — never a division fault. -/
theorem calculate_divida_ebitda_spec (entries : List CashFlowEntry) :
    calculate_divida_ebitda entries
      = if (entries.map (fun cf => cf.ebitda)).sum = 0 then none
        else some ((entries.map (fun cf => cf.capex)).sum
            / (entries.map (fun cf => cf.ebitda)).sum) := by
  rw [calculate_divida_ebitda]
  by_cases h : (entries.map (fun cf => cf.ebitda)).sum = 0
  · simp [h]
  · simp [h]

/-- Claim C9: a full calculation pass reads only the three schedules and
the configuration and perturbs none of them (it only stores the snapshot in
the results cache), so two consecutive passes against an unmodified state
produce identical ResultSnapshots, for any fixed deterministic library
functions `npirr` (numpy irr) and `mr` (the float monthly-rate
conversion). -/
theorem calculate_all_idempotent (npirr : List ℚ → FloatVal) (mr : ℚ → ℚ)
    (st : FinancialState) :
    (calculate_all npirr mr (calculate_all npirr mr st).2).1
      = (calculate_all npirr mr st).1 ∧
    (calculate_all npirr mr st).2.capex = st.capex ∧
    (calculate_all npirr mr st).2.opex = st.opex ∧
    (calculate_all npirr mr st).2.receitas = st.receitas ∧
    (calculate_all npirr mr st).2.config = st.config :=
  ⟨rfl, rfl, rfl, rfl, rfl⟩

/-- Claim C1 refuted (code bug), evaluated on the model at the failing
input: with the stored item BOMBA-01 = {description "Item", quantity 2,
unit_price 100, month 1}, the call
`update_item("BOMBA-01", description="")` fails validation (blank
description) yet the stored item's description is already overwritten to
`""` — `update_item` mutates in place before validating and never rolls
back, so a failed update does not leave the existing item unchanged. -/
theorem capex_update_item_not_atomic :
    ((capex_add_item capexEmpty "Item" 2 100 1 "BOMBA-01").2.2).items
      = [("BOMBA-01", ⟨⟨"BOMBA-01", "Item", 2, 100⟩, 1⟩)] ∧
    (capex_update_item (capex_add_item capexEmpty "Item" 2 100 1 "BOMBA-01").2.2
        "BOMBA-01" (some "") none none none).1 = false ∧
    (capex_update_item (capex_add_item capexEmpty "Item" 2 100 1 "BOMBA-01").2.2
        "BOMBA-01" (some "") none none none).2.2.items
      = [("BOMBA-01", ⟨⟨"BOMBA-01", "", 2, 100⟩, 1⟩)] ∧
    ("" : String) ≠ "Item" := by
  refine ⟨?_, ?_, ?_, by decide⟩
  · decide
  · decide
  · decide

/-- Claim C6 refuted (code bug), evaluated on the model at the failing
input: with the stored item PMP-01 = {quantity 2, unit_price 100} and
cached total 200, the call `update_item("PMP-01", quantity=-5)` fails
validation after having committed `quantity = -5`, and skips
`_update_total`; the cached `total_investment` stays 200 while the
aggregate recomputed from the current contents is -500 — the cache is left
stale. -/
theorem capex_total_stale_after_failed_update :
    (capex_update_item (capex_add_item capexEmpty "Pump" 2 100 1 "PMP-01").2.2
        "PMP-01" none (some (-5)) none none).1 = false ∧
    (capex_update_item (capex_add_item capexEmpty "Pump" 2 100 1 "PMP-01").2.2
        "PMP-01" none (some (-5)) none none).2.2.total_investment = 200 ∧
    capex_compute_total
        ((capex_update_item (capex_add_item capexEmpty "Pump" 2 100 1 "PMP-01").2.2
          "PMP-01" none (some (-5)) none none).2.2.items) = -500 ∧
    (capex_update_item (capex_add_item capexEmpty "Pump" 2 100 1 "PMP-01").2.2
        "PMP-01" none (some (-5)) none none).2.2.total_investment
      ≠ capex_compute_total
        ((capex_update_item (capex_add_item capexEmpty "Pump" 2 100 1 "PMP-01").2.2
          "PMP-01" none (some (-5)) none none).2.2.items) := by
  have hb : str_blank "Pump" = false := by decide
  have ht : ¬ (("PMP-01" : String) = "") := by decide
  have hadd : (capex_add_item capexEmpty "Pump" 2 100 1 "PMP-01").2.2
      = ⟨[("PMP-01", ⟨⟨"PMP-01", "Pump", 2, 100⟩, 1⟩)], 200⟩ := by
    rw [capex_add_item]
    norm_num [capexEmpty, mkCapExItem, clamp_month, base_validate, hb, ht,
      lookup_tag, capex_compute_total, total_value]
  have hupd : capex_update_item
        (⟨[("PMP-01", ⟨⟨"PMP-01", "Pump", 2, 100⟩, 1⟩)], 200⟩ : CapexState)
        "PMP-01" none (some (-5)) none none
      = (false, "Quantidade nao pode ser negativa",
          ⟨[("PMP-01", ⟨⟨"PMP-01", "Pump", -5, 100⟩, 1⟩)], 200⟩) := by
    rw [capex_update_item]
    norm_num [lookup_tag, replace_tag, base_update, base_validate, hb, ht]
  rw [hadd, hupd]
  refine ⟨rfl, rfl, ?_, ?_⟩
  · norm_num [capex_compute_total, total_value]
  · norm_num [capex_compute_total, total_value]

theorem opex_updated_item_start (item : OpExItem) (d : Option String)
    (q up : Option ℚ) (rec : Option Bool) (s e : Option ℤ) :
    (opex_updated_item item d q up rec s e).start_month
      = match s with
        | some sv => clamp_month sv
        | none => item.start_month := by
  cases s <;> cases e <;> cases rec <;> rfl

theorem opex_updated_item_end (item : OpExItem) (d : Option String)
    (q up : Option ℚ) (rec : Option Bool) (s e : Option ℤ) :
    (opex_updated_item item d q up rec s e).end_month
      = match e with
        | some ev =>
          max (match s with
               | some sv => clamp_month sv
               | none => item.start_month) (min 12 ev)
        | none => item.end_month := by
  cases s <;> cases e <;> cases rec <;> rfl

theorem opex_update_item_items (st : OpexState) (tag : String)
    (d : Option String) (q up : Option ℚ) (rec : Option Bool)
    (s e : Option ℤ) :
    (opex_update_item st tag d q up rec s e).2.2.items
      = match lookup_tag st.items tag with
        | none => st.items
        | some item =>
          replace_tag st.items tag (opex_updated_item item d q up rec s e) := by
  rw [opex_update_item]
  cases lookup_tag st.items tag with
  | none => rfl
  | some item =>
    rcases hv : base_validate (opex_updated_item item d q up rec s e).base with ⟨b, msg⟩
    cases b <;> simp [hv]

theorem receita_updated_item_start (item : ReceitaItem) (d : Option String)
    (q up : Option ℚ) (rec : Option Bool) (s e : Option ℤ) (g : Option ℚ) :
    (receita_updated_item item d q up rec s e g).start_month
      = match s with
        | some sv => clamp_month sv
        | none => item.start_month := by
  cases s <;> cases e <;> cases rec <;> cases g <;> rfl

theorem receita_updated_item_end (item : ReceitaItem) (d : Option String)
    (q up : Option ℚ) (rec : Option Bool) (s e : Option ℤ) (g : Option ℚ) :
    (receita_updated_item item d q up rec s e g).end_month
      = match e with
        | some ev =>
          max (match s with
               | some sv => clamp_month sv
               | none => item.start_month) (min 12 ev)
        | none => item.end_month := by
  cases s <;> cases e <;> cases rec <;> cases g <;> rfl

theorem receitas_update_item_items (st : ReceitasState) (tag : String)
    (d : Option String) (q up : Option ℚ) (rec : Option Bool)
    (s e : Option ℤ) (g : Option ℚ) :
    (receitas_update_item st tag d q up rec s e g).2.2.items
      = match lookup_tag st.items tag with
        | none => st.items
        | some item =>
          replace_tag st.items tag (receita_updated_item item d q up rec s e g) := by
  rw [receitas_update_item]
  cases lookup_tag st.items tag with
  | none => rfl
  | some item =>
    rcases hv : base_validate (receita_updated_item item d q up rec s e g).base with ⟨b, msg⟩
    cases b <;> simp [hv]

/-- Counterexample for C7 as stated: starting from the valid stored cost
item RENT-01 with window [1, 5], the call
`update_item("RENT-01", start_month=10)` *succeeds* and leaves the stored
item with `start_month = 10 > end_month = 5` — when only `start_month` is
supplied, nothing re-clamps `end_month`, so the invariant
`end_month ≥ start_month` is violated after an `update_item` call. -/
theorem opex_update_item_breaks_month_invariant :
    (opex_update_item (opex_add_item opexEmpty "Rent" 1 100 true 1 5 "RENT-01").2.2
        "RENT-01" none none none none (some 10) none).1 = true ∧
    lookup_tag
        (opex_update_item (opex_add_item opexEmpty "Rent" 1 100 true 1 5 "RENT-01").2.2
          "RENT-01" none none none none (some 10) none).2.2.items "RENT-01"
      = some ⟨⟨"RENT-01", "Rent", 1, 100⟩, true, 10, 5⟩ ∧
    ¬ months_invariant ⟨⟨"RENT-01", "Rent", 1, 100⟩, true, 10, 5⟩ := by
  have hb : str_blank "Rent" = false := by decide
  have ht : ¬ (("RENT-01" : String) = "") := by decide
  have hadd : (opex_add_item opexEmpty "Rent" 1 100 true 1 5 "RENT-01").2.2
      = ⟨[("RENT-01", ⟨⟨"RENT-01", "Rent", 1, 100⟩, true, 1, 5⟩)], 500⟩ := by
    rw [opex_add_item]
    norm_num [opexEmpty, mkOpExItem, clamp_month, base_validate, hb, ht,
      lookup_tag, opex_compute_total, opex_get_monthly_costs,
      opex_get_monthly_cost, OpExItem.get_monthly_cost, total_value,
      List.range_succ]
  have hupd : opex_update_item
        (⟨[("RENT-01", ⟨⟨"RENT-01", "Rent", 1, 100⟩, true, 1, 5⟩)], 500⟩ : OpexState)
        "RENT-01" none none none none (some 10) none
      = (true, "Item atualizado com sucesso",
          ⟨[("RENT-01", ⟨⟨"RENT-01", "Rent", 1, 100⟩, true, 10, 5⟩)], 0⟩) := by
    rw [opex_update_item]
    norm_num [lookup_tag, replace_tag, opex_updated_item, base_update,
      base_validate, hb, ht, clamp_month, opex_compute_total,
      opex_get_monthly_costs, opex_get_monthly_cost,
      OpExItem.get_monthly_cost, total_value, List.range_succ]
  rw [hadd, hupd]
  refine ⟨rfl, ?_, by decide⟩
  simp [lookup_tag]

/-- Claim C7 (amended): the month-range invariant — `start_month`,
`end_month` in [1, 12] with `end_month ≥ start_month` — holds after
construction of cost and revenue items with arbitrary integer inputs
(clamped, not rejected), and for both categories it is preserved by every
`update_item` call that supplies `end_month` whenever it supplies
`start_month` (whether or not the update succeeds).  It is *not* preserved
by an update supplying only `start_month` (see the counterexample
theorem), and `from_dict` copies the record's timing fields unclamped in
both categories, so reconstruction keeps the invariant only when the
record already satisfies it. -/
theorem opex_month_invariant_amended :
    (∀ (tag description : String) (q up : ℚ) (rec : Bool) (s e : ℤ),
        months_invariant (mkOpExItem tag description q up rec s e)) ∧
    (∀ (tag description : String) (q up : ℚ) (rec : Bool) (s e : ℤ) (g : ℚ),
        receita_months_invariant (mkReceitaItem tag description q up rec s e g)) ∧
    (∀ (st : OpexState) (tag : String) (d : Option String)
        (q up : Option ℚ) (rec : Option Bool) (s e : Option ℤ),
        (∀ p ∈ st.items, months_invariant p.2) →
        (s = none ∨ e ≠ none) →
        ∀ p ∈ (opex_update_item st tag d q up rec s e).2.2.items,
          months_invariant p.2) ∧
    (∀ r : OpexRecord,
        (opex_from_dict r).start_month = r.start_month ∧
        (opex_from_dict r).end_month = r.end_month) ∧
    (∀ (st : ReceitasState) (tag : String) (d : Option String)
        (q up : Option ℚ) (rec : Option Bool) (s e : Option ℤ) (g : Option ℚ),
        (∀ p ∈ st.items, receita_months_invariant p.2) →
        (s = none ∨ e ≠ none) →
        ∀ p ∈ (receitas_update_item st tag d q up rec s e g).2.2.items,
          receita_months_invariant p.2) ∧
    (∀ r : ReceitaRecord,
        (receita_from_dict r).start_month = r.start_month ∧
        (receita_from_dict r).end_month = r.end_month) := by
  refine ⟨?_, ?_, ?_, ?_, ?_, ?_⟩
  · intro tag description q up rec s e
    simp only [mkOpExItem, months_invariant, clamp_month]
    omega
  · intro tag description q up rec s e g
    simp only [mkReceitaItem, receita_months_invariant, clamp_month]
    omega
  · intro st tag d q up rec s e hinv hse p hp
    rw [opex_update_item_items] at hp
    cases hlk : lookup_tag st.items tag with
    | none => rw [hlk] at hp; exact hinv p hp
    | some item =>
      rw [hlk] at hp
      rcases mem_replace_tag hp with hmem | heq
      · exact hinv p hmem
      · rw [heq]
        have hitem : months_invariant item := hinv (tag, item) (lookup_tag_mem hlk)
        rcases hitem with ⟨h1, h2, h3, h4, h5⟩
        unfold months_invariant
        rw [opex_updated_item_start, opex_updated_item_end]
        rcases hse with rfl | hne
        · cases e with
          | none => exact ⟨h1, h2, h3, h4, h5⟩
          | some ev =>
            simp only [clamp_month]
            omega
        · cases e with
          | none => exact absurd rfl hne
          | some ev =>
            cases s with
            | none =>
              simp only [clamp_month]
              omega
            | some sv =>
              simp only [clamp_month]
              omega
  · intro r
    exact ⟨rfl, rfl⟩
  · intro st tag d q up rec s e g hinv hse p hp
    rw [receitas_update_item_items] at hp
    cases hlk : lookup_tag st.items tag with
    | none => rw [hlk] at hp; exact hinv p hp
    | some item =>
      rw [hlk] at hp
      rcases mem_replace_tag hp with hmem | heq
      · exact hinv p hmem
      · rw [heq]
        have hitem : receita_months_invariant item :=
          hinv (tag, item) (lookup_tag_mem hlk)
        rcases hitem with ⟨h1, h2, h3, h4, h5⟩
        unfold receita_months_invariant
        rw [receita_updated_item_start, receita_updated_item_end]
        rcases hse with rfl | hne
        · cases e with
          | none => exact ⟨h1, h2, h3, h4, h5⟩
          | some ev =>
            simp only [clamp_month]
            omega
        · cases e with
          | none => exact absurd rfl hne
          | some ev =>
            cases s with
            | none =>
              simp only [clamp_month]
              omega
            | some sv =>
              simp only [clamp_month]
              omega
  · intro r
    exact ⟨rfl, rfl⟩

/-- Witness for C7's amended theorem: the update-preservation clause at a
concrete one-item schedule, updating only `end_month` to 3. -/
theorem opex_month_invariant_amended_witness :
    ∀ p ∈ (opex_update_item
        (⟨[("T", mkOpExItem "T" "x" 1 1 true 1 12)], 0⟩ : OpexState)
        "T" none none none none none (some 3)).2.2.items,
      months_invariant p.2 :=
  opex_month_invariant_amended.2.2.1
    (⟨[("T", mkOpExItem "T" "x" 1 1 true 1 12)], 0⟩ : OpexState)
    "T" none none none none none (some 3)
    (by
      intro p hp
      rw [List.mem_singleton] at hp
      subst hp
      decide)
    (Or.inr (by simp))
